import Mathlib

/-!
Shallow embedding of the PNG multi-hazard assessment pipeline (riverine
flood, coastal inundation and landslide Earth Engine scripts).

A raster cell value is `Option ℚ` (or `Option ℤ` for ordinal hazard
levels): `none` is a masked / "no data" cell.  Earth Engine semantics
embedded here:
  * `updateMask` turns a cell into `none` where the mask is zero/false;
  * a dyadic image operation such as `img1.max(img2)` produces a masked
    output cell whenever either input cell is masked;
  * `img.where(test, v)` replaces the current value by `v` on the cells
    where the (unmasked) test is nonzero, and leaves masked cells masked;
  * `reduceRegion` with the sum reducer adds the values of the unmasked
    cells of each band inside the zone, and reports no value (`none`)
    for a band that has no unmasked cell there;
  * `ee.Number(...).round()` computes the integer nearest to the input,
    embedded as `⌊x + 1/2⌋` (all the rounded quantities here are
    non-negative population sums, so tie direction is immaterial to the
    theorems below, whose concrete instances avoid exact halves).
Numeric values are embedded as `ℚ`.
-/

namespace PNGHazard

/-- Embedding of `ee.Number(x).round()`: nearest integer, embedded as `⌊x + 1/2⌋`. -/
def eeRound (x : ℚ) : ℤ := ⌊x + 1/2⌋

/-- Dyadic `ee.Image.max` at one cell: masked wherever either input is
masked, otherwise the pointwise maximum. -/
def eeImageMax (a b : Option ℤ) : Option ℤ :=
  match a, b with
  | some x, some y => some (max x y)
  | _, _ => none

/-- Function `maskValidRiskLevels` (landslide script): mask = `image.gte(1).and(image.lte(8))`,
then `image.updateMask(mask)`, at one cell. -/
def maskValidRiskLevels (v : Option ℤ) : Option ℤ :=
  match v with
  | some x => if 1 ≤ x ∧ x ≤ 8 then some x else none
  | none => none

/-- Function `combineLandslideHazards` (landslide script): mask both triggers to the
valid range, then `maskedEQ.max(maskedPR)`, at one cell. -/
def combineLandslideHazards (eqHaz prHaz : Option ℤ) : Option ℤ :=
  eeImageMax (maskValidRiskLevels eqHaz) (maskValidRiskLevels prHaz)

/-- A trigger cell is valid when it holds a value in the closed range [1,8]. -/
def isValidLevel (v : Option ℤ) : Prop :=
  ∃ x, v = some x ∧ 1 ≤ x ∧ x ≤ 8

instance (v : Option ℤ) : Decidable (isValidLevel v) := by
  unfold isValidLevel
  match v with
  | none => exact isFalse (by simp)
  | some x => exact decidable_of_iff (1 ≤ x ∧ x ≤ 8) (by simp)

/-- Function `reclassifyRisk` (landslide script): the chain of `where` calls, every
test taken on the original image, at one cell. -/
def reclassifyRisk (v : Option ℤ) : Option ℤ :=
  v.map (fun x0 =>
    let a1 := if 1 ≤ x0 ∧ x0 ≤ 2 then 1 else x0
    let a2 := if 3 ≤ x0 ∧ x0 ≤ 4 then 2 else a1
    let a3 := if 5 ≤ x0 ∧ x0 ≤ 6 then 3 else a2
    let a4 := if 7 ≤ x0 ∧ x0 ≤ 8 then 4 else a3
    a4)

/-- Configuration `CONFIG.riskWeights` of the landslide script. -/
structure RiskWeights where
  low : ℚ
  medium : ℚ
  high : ℚ
  veryHigh : ℚ

/-- The configured risk scoring weights. -/
def riskWeights : RiskWeights :=
  { low := 1, medium := 2, high := 3, veryHigh := 4 }

/-- One raster cell inside a zone, for the landslide pipeline: the
population band value and the reclassified 4-tier risk map value at the
cell (`none` = masked / "no data"). -/
structure Cell where
  pop : Option ℚ
  risk : Option ℤ
deriving DecidableEq

/-- Band `population.updateMask(riskMap.eq(k))` at one cell: the population
value survives only where both the population and the risk map are
unmasked and the risk equals `k`. -/
def tierBandVal (k : ℤ) (c : Cell) : Option ℚ :=
  match c.pop, c.risk with
  | some p, some r => if r = k then some p else none
  | _, _ => none

/-- Embedding of `reduceRegion` with the sum reducer over one band of a zone: the sum
of the unmasked values, or no value at all when the band has no unmasked
cell inside the zone. -/
def reduceSumBand (vals : List (Option ℚ)) : Option ℚ :=
  let valid := vals.filterMap id
  if valid.isEmpty then none else some valid.sum

/-- The (null-coerced) total-population band sum of a zone. -/
def sumTotalPop (cells : List Cell) : ℚ :=
  (cells.map (fun c => c.pop.getD 0)).sum

/-- The (null-coerced) tier-`k` population band sum of a zone. -/
def sumTierPop (k : ℤ) (cells : List Cell) : ℚ :=
  (cells.map (fun c => (tierBandVal k c).getD 0)).sum

/-- The per-zone record built by `calculateLLGStatistics` (landslide
script): rounded population counts, guarded ratios, weighted score. -/
structure LLGStats where
  totalPop : ℤ
  lowPop : ℤ
  mediumPop : ℤ
  highPop : ℤ
  veryHighPop : ℤ
  lowRatio : ℚ
  mediumRatio : ℚ
  highRatio : ℚ
  veryHighRatio : ℚ
  riskScore : ℚ
deriving DecidableEq

/-- The record-building tail of `calculateLLGStatistics`, from the five
reduced band values (`none` = the reducer reported no value): null
coercion to 0, rounding, `safePop` guard, ratios and weighted score. -/
def buildLLGRecord (t l m h v : Option ℚ) : LLGStats :=
  let totalPop := eeRound (t.getD 0)
  let lowPop := eeRound (l.getD 0)
  let mediumPop := eeRound (m.getD 0)
  let highPop := eeRound (h.getD 0)
  let veryHighPop := eeRound (v.getD 0)
  let safePop : ℤ := if 0 < totalPop then totalPop else 1
  let lowRatio : ℚ := (lowPop : ℚ) / (safePop : ℚ)
  let mediumRatio : ℚ := (mediumPop : ℚ) / (safePop : ℚ)
  let highRatio : ℚ := (highPop : ℚ) / (safePop : ℚ)
  let veryHighRatio : ℚ := (veryHighPop : ℚ) / (safePop : ℚ)
  let riskScore := lowRatio * riskWeights.low + mediumRatio * riskWeights.medium
    + highRatio * riskWeights.high + veryHighRatio * riskWeights.veryHigh
  { totalPop := totalPop, lowPop := lowPop, mediumPop := mediumPop,
    highPop := highPop, veryHighPop := veryHighPop,
    lowRatio := lowRatio, mediumRatio := mediumRatio, highRatio := highRatio,
    veryHighRatio := veryHighRatio, riskScore := riskScore }

/-- Function `calculateLLGStatistics` (landslide script) for one zone: one
multi-band reduction (total population plus the four tier-masked
population bands), then the record building. -/
def calculateLLGStatistics (cells : List Cell) : LLGStats :=
  buildLLGRecord
    (reduceSumBand (cells.map Cell.pop))
    (reduceSumBand (cells.map (tierBandVal 1)))
    (reduceSumBand (cells.map (tierBandVal 2)))
    (reduceSumBand (cells.map (tierBandVal 3)))
    (reduceSumBand (cells.map (tierBandVal 4)))

/-- Population band values are non-negative (people per cell). -/
def popsNonneg (cells : List Cell) : Prop :=
  ∀ c ∈ cells, 0 ≤ c.pop.getD 0

instance (cells : List Cell) : Decidable (popsNonneg cells) := by
  unfold popsNonneg
  infer_instance

/-- A cell is covered when, if it carries positive population, its risk
cell holds one of the four valid tiers. -/
def coveredCell (c : Cell) : Prop :=
  0 < c.pop.getD 0 →
    (c.risk.getD 0 = 1 ∨ c.risk.getD 0 = 2 ∨ c.risk.getD 0 = 3 ∨ c.risk.getD 0 = 4)

instance (c : Cell) : Decidable (coveredCell c) := by
  unfold coveredCell
  infer_instance

/-- One raster cell inside a zone, for the riverine-flood pipeline: the
population band value and the flood-depth value at the cell. -/
structure FCell where
  pop : Option ℚ
  depth : Option ℚ
deriving DecidableEq

/-- Function `createFloodMask`: `floodImage.gt(0).selfMask()` at one cell — value 1
where the depth is unmasked and positive, masked elsewhere. -/
def floodMaskVal (c : FCell) : Option ℚ :=
  match c.depth with
  | some d => if 0 < d then some 1 else none
  | none => none

/-- Function `calculateExposedPopulation`: `population.updateMask(floodMask)` at one
cell. -/
def exposedBandVal (c : FCell) : Option ℚ :=
  match c.pop, floodMaskVal c with
  | some p, some _ => some p
  | _, _ => none

/-- The per-zone record built by `calculateLLGStatistics` of the flood
script: rounded populations, pixel-count area, guarded ratio and density. -/
structure FloodStats where
  totalPop : ℤ
  exposedPop : ℤ
  floodAreaKm2 : ℚ
  exposureRatio : ℚ
  exposureDensity : ℚ
deriving DecidableEq

/-- The record-building tail of the flood `calculateLLGStatistics`, from
the three reduced band values: null coercion, rounding of the two
population counts, area conversion (900 m² per pixel), and the two
zero-division-guarded metrics. -/
def buildFloodRecord (t e a : Option ℚ) : FloodStats :=
  let totalPop := eeRound (t.getD 0)
  let exposedPop := eeRound (e.getD 0)
  let floodPixels := a.getD 0
  let floodAreaKm2 := floodPixels * 900 / 1000000
  let exposureRatio : ℚ :=
    if 0 < totalPop then (exposedPop : ℚ) / (totalPop : ℚ) else 0
  let exposureDensity : ℚ :=
    if 0 < floodAreaKm2 then (exposedPop : ℚ) / floodAreaKm2 else 0
  { totalPop := totalPop, exposedPop := exposedPop,
    floodAreaKm2 := floodAreaKm2, exposureRatio := exposureRatio,
    exposureDensity := exposureDensity }

/-- The flood `calculateLLGStatistics` for one zone: one multi-band
reduction (total population, exposed population, flood mask) and the
record building. -/
def calculateFloodLLGStatistics (cells : List FCell) : FloodStats :=
  buildFloodRecord (reduceSumBand (cells.map FCell.pop))
    (reduceSumBand (cells.map exposedBandVal))
    (reduceSumBand (cells.map floodMaskVal))

/-- Non-negative population band values, flood pipeline. -/
def fpopsNonneg (cells : List FCell) : Prop :=
  ∀ c ∈ cells, 0 ≤ c.pop.getD 0

instance (cells : List FCell) : Decidable (fpopsNonneg cells) := by
  unfold fpopsNonneg
  infer_instance

/-- The total-population band sum of a flood zone. -/
def fSumTotalPop (cells : List FCell) : ℚ :=
  (cells.map (fun c => c.pop.getD 0)).sum

/-- The exposed-population band sum of a flood zone. -/
def fSumExposed (cells : List FCell) : ℚ :=
  (cells.map (fun c => (exposedBandVal c).getD 0)).sum

/-- The `safePop` denominator guard of the landslide record. -/
def safeDenom (s : LLGStats) : ℤ :=
  if 0 < s.totalPop then s.totalPop else 1

/-- The zone used by the C3 and C6 counterexamples: two cells, populations
0.6 in tier 1 and 0.6 in tier 2.  Each tier band sum 0.6 rounds to 1 while
the total 1.2 rounds to 1. -/
def cellsPoint6 : List Cell :=
  [{ pop := some (3/5), risk := some 1 }, { pop := some (3/5), risk := some 2 }]

/-- The zone used by the C4 counterexample: one populated cell with no
valid hazard tier (risk masked), so the score is 0 with positive
population. -/
def cellsUncovered : List Cell :=
  [{ pop := some 100, risk := none }]

/-- A simple whole-number zone used by several witnesses. -/
def cellsWhole : List Cell :=
  [{ pop := some 2, risk := some 3 }]

/-- One exported LLG statistics row, landslide pipeline: the properties the
provincial aggregation reads (`ADM1_EN` parent name, `LLG_Population`, the
four tier populations, `Risk_Score`). -/
structure LLGRow where
  province : String
  llgPop : ℚ
  lowPop : ℚ
  mediumPop : ℚ
  highPop : ℚ
  veryHighPop : ℚ
  riskScore : ℚ
deriving DecidableEq

/-- One provincial row built by the landslide `aggregateToProvinceLevel`. -/
structure ProvinceRow where
  province : String
  totalPop : ℚ
  lowPop : ℚ
  mediumPop : ℚ
  highPop : ℚ
  veryHighPop : ℚ
  totalRiskScore : ℚ
  averageRiskScore : ℚ
  llgCount : ℕ
deriving DecidableEq

/-- Insert into a list sorted by a string key (model of the collection
`sort` by a property). -/
def insertSorted {α : Type} (key : α → String) (a : α) : List α → List α
  | [] => [a]
  | b :: l => if key a ≤ key b then a :: b :: l else b :: insertSorted key a l

/-- Sort by a string key ascending (model of `.sort('Province')`). -/
def sortByKey {α : Type} (key : α → String) : List α → List α
  | [] => []
  | a :: l => insertSorted key a (sortByKey key l)

/-- Filter `llgStats.filter(ee.Filter.eq('ADM1_EN', provinceName))`. -/
def membersOf (rows : List LLGRow) (p : String) : List LLGRow :=
  rows.filter (fun r => r.province == p)

/-- The per-province record of the landslide `aggregateToProvinceLevel`:
every absolute count re-summed over the member rows, the total risk score
summed, and the average risk score the guarded quotient of summed scores
by the member count. -/
def provinceRecord (rows : List LLGRow) (p : String) : ProvinceRow :=
  let f := membersOf rows p
  let totalPop := (f.map LLGRow.llgPop).sum
  let lowPop := (f.map LLGRow.lowPop).sum
  let mediumPop := (f.map LLGRow.mediumPop).sum
  let highPop := (f.map LLGRow.highPop).sum
  let veryHighPop := (f.map LLGRow.veryHighPop).sum
  let totalRiskScore := (f.map LLGRow.riskScore).sum
  let llgCount := f.length
  let avgRiskScore : ℚ :=
    if 0 < llgCount then totalRiskScore / (llgCount : ℚ) else 0
  { province := p, totalPop := totalPop, lowPop := lowPop,
    mediumPop := mediumPop, highPop := highPop, veryHighPop := veryHighPop,
    totalRiskScore := totalRiskScore, averageRiskScore := avgRiskScore,
    llgCount := llgCount }

/-- Function `aggregateToProvinceLevel` (landslide script): the distinct parent
names actually present, one record per name, sorted by province name. -/
def aggregateToProvinceLevel (rows : List LLGRow) : List ProvinceRow :=
  sortByKey ProvinceRow.province
    (((rows.map LLGRow.province).dedup).map (provinceRecord rows))

/-- One exported LLG statistics row, flood pipeline. -/
structure FloodRow where
  province : String
  llgPop : ℚ
  exposedPop : ℚ
  floodArea : ℚ
deriving DecidableEq

/-- One provincial row built by the flood `aggregateToProvinceLevel`. -/
structure FloodProvinceRow where
  province : String
  totalPop : ℚ
  exposedPop : ℚ
  floodArea : ℚ
  exposureRatio : ℚ
  exposureDensity : ℚ
deriving DecidableEq

/-- The flood pipeline's member filter. -/
def fmembersOf (rows : List FloodRow) (p : String) : List FloodRow :=
  rows.filter (fun r => r.province == p)

/-- The per-province record of the flood `aggregateToProvinceLevel`:
re-summed counts and area, ratio and density re-derived from the pooled
sums behind zero guards. -/
def floodProvinceRecord (rows : List FloodRow) (p : String) : FloodProvinceRow :=
  let f := fmembersOf rows p
  let totalPop := (f.map FloodRow.llgPop).sum
  let exposedPop := (f.map FloodRow.exposedPop).sum
  let floodArea := (f.map FloodRow.floodArea).sum
  let exposureRatio : ℚ := if 0 < totalPop then exposedPop / totalPop else 0
  let exposureDensity : ℚ := if 0 < floodArea then exposedPop / floodArea else 0
  { province := p, totalPop := totalPop, exposedPop := exposedPop,
    floodArea := floodArea, exposureRatio := exposureRatio,
    exposureDensity := exposureDensity }

/-- Function `aggregateToProvinceLevel` (flood script). -/
def aggregateFloodToProvinceLevel (rows : List FloodRow) : List FloodProvinceRow :=
  sortByKey FloodProvinceRow.province
    (((rows.map FloodRow.province).dedup).map (floodProvinceRecord rows))

/-- The single LLG row used by the C2 witness. -/
def llgRowsW : List LLGRow :=
  [{ province := "A", llgPop := 100, lowPop := 10, mediumPop := 20,
     highPop := 30, veryHighPop := 40, riskScore := 3 }]

/-- The single flood row used by the C2 witness. -/
def floodRowsW : List FloodRow :=
  [{ province := "A", llgPop := 100, exposedPop := 10, floodArea := 2 }]

/-- The national per-tier totals of `calculateNationalRiskTotals`
(landslide script): a fresh single reduction of the four tier-masked
population bands over the whole study region, rounded per band. -/
structure NationalTotals where
  low : ℤ
  medium : ℤ
  high : ℤ
  veryHigh : ℤ
deriving DecidableEq

/-- Function `calculateNationalRiskTotals` over the region's cells. -/
def calculateNationalRiskTotals (cells : List Cell) : NationalTotals :=
  { low := eeRound ((reduceSumBand (cells.map (tierBandVal 1))).getD 0),
    medium := eeRound ((reduceSumBand (cells.map (tierBandVal 2))).getD 0),
    high := eeRound ((reduceSumBand (cells.map (tierBandVal 3))).getD 0),
    veryHigh := eeRound ((reduceSumBand (cells.map (tierBandVal 4))).getD 0) }

/-- Function `calculateNationalExposure` (flood script): the direct sum of the
zone rows' exposed populations. -/
def calculateNationalExposure (rows : List FloodRow) : ℚ :=
  (rows.map FloodRow.exposedPop).sum

/-- The two-zone split region of the C8 counterexample: each zone holds one
tier-1 cell of population 0.6. -/
def zonesSplit : List (List Cell) :=
  [[{ pop := some (3/5), risk := some 1 }], [{ pop := some (3/5), risk := some 1 }]]

/-- The whole-number two-zone region of the C8 witness. -/
def zonesWhole : List (List Cell) :=
  [[{ pop := some 2, risk := some 1 }], [{ pop := some 3, risk := some 1 }]]

/-- A feature property value: numeric statistics or string attributes such
as the zone name and the parent province name. -/
inductive PVal where
  | num (q : ℚ)
  | str (s : String)
deriving DecidableEq

/-- A zone feature of the landslide pipeline: its geometry (the raster
cells it covers) and its property table. -/
structure Feature where
  geom : List Cell
  props : List (String × PVal)
deriving DecidableEq

/-- Method `feature.set`: a new feature, same geometry, with the given
properties overriding like-named existing ones. -/
def featureSet (f : Feature) (newProps : List (String × PVal)) : Feature :=
  { geom := f.geom, props := newProps ++ f.props }

/-- Property lookup on a feature. -/
def getProp (f : Feature) (k : String) : Option PVal :=
  f.props.lookup k

/-- The statistic property names written by the landslide
`calculateLLGStatistics`. -/
def statKeys : List String :=
  ["LLG_Population", "Low_Risk_Population", "Medium_Risk_Population",
   "High_Risk_Population", "Very_High_Risk_Population", "Low_Risk_Ratio",
   "Medium_Risk_Ratio", "High_Risk_Ratio", "Very_High_Risk_Ratio",
   "Risk_Score"]

/-- The property dictionary passed to `feature.set` by the landslide
`calculateLLGStatistics`. -/
def llgStatProps (s : LLGStats) : List (String × PVal) :=
  [("LLG_Population", PVal.num s.totalPop),
   ("Low_Risk_Population", PVal.num s.lowPop),
   ("Medium_Risk_Population", PVal.num s.mediumPop),
   ("High_Risk_Population", PVal.num s.highPop),
   ("Very_High_Risk_Population", PVal.num s.veryHighPop),
   ("Low_Risk_Ratio", PVal.num s.lowRatio),
   ("Medium_Risk_Ratio", PVal.num s.mediumRatio),
   ("High_Risk_Ratio", PVal.num s.highRatio),
   ("Very_High_Risk_Ratio", PVal.num s.veryHighRatio),
   ("Risk_Score", PVal.num s.riskScore)]

/-- The per-feature body of the landslide `boundaries.map(...)`. -/
def llgMapper (f : Feature) : Feature :=
  featureSet f (llgStatProps (calculateLLGStatistics f.geom))

/-- The landslide `calculateLLGStatistics` over the whole collection. -/
def calculateLLGStatisticsFC (boundaries : List Feature) : List Feature :=
  boundaries.map llgMapper

/-- A zone feature of the flood pipeline. -/
structure FFeature where
  geom : List FCell
  props : List (String × PVal)
deriving DecidableEq

/-- Method `feature.set` for flood features. -/
def ffeatureSet (f : FFeature) (newProps : List (String × PVal)) : FFeature :=
  { geom := f.geom, props := newProps ++ f.props }

/-- Property lookup on a flood feature. -/
def fgetProp (f : FFeature) (k : String) : Option PVal :=
  f.props.lookup k

/-- The statistic property names written by the flood
`calculateLLGStatistics`. -/
def floodStatKeys : List String :=
  ["LLG_Population", "Exposed_Population", "Flood_Area_km2",
   "Exposure_Ratio", "Exposure_Density"]

/-- The property dictionary passed to `feature.set` by the flood
`calculateLLGStatistics`. -/
def floodStatProps (s : FloodStats) : List (String × PVal) :=
  [("LLG_Population", PVal.num s.totalPop),
   ("Exposed_Population", PVal.num s.exposedPop),
   ("Flood_Area_km2", PVal.num s.floodAreaKm2),
   ("Exposure_Ratio", PVal.num s.exposureRatio),
   ("Exposure_Density", PVal.num s.exposureDensity)]

/-- The per-feature body of the flood `boundaries.map(...)`. -/
def floodMapper (f : FFeature) : FFeature :=
  ffeatureSet f (floodStatProps (calculateFloodLLGStatistics f.geom))

/-- The flood `calculateLLGStatistics` over the whole collection. -/
def calculateFloodLLGStatisticsFC (boundaries : List FFeature) : List FFeature :=
  boundaries.map floodMapper

/-- A landslide zone feature with a pre-existing parent-province
attribute, used by the C10 witness. -/
def featW : Feature :=
  { geom := cellsWhole, props := [("ADM1_EN", PVal.str "Chimbu")] }

/-- A flood zone feature with a pre-existing parent-province attribute,
used by the C10 witness. -/
def ffeatW : FFeature :=
  { geom := [{ pop := some 2, depth := some 1 }],
    props := [("ADM1_EN", PVal.str "Gulf")] }

/-- Helper: a fused cell where both triggers are valid. -/
theorem combine_both_valid (x y : ℤ) (hx1 : 1 ≤ x) (hx8 : x ≤ 8)
    (hy1 : 1 ≤ y) (hy8 : y ≤ 8) :
    combineLandslideHazards (some x) (some y) = some (max x y) := by
  simp [combineLandslideHazards, maskValidRiskLevels, eeImageMax, hx1, hx8, hy1, hy8]

/-- Helper: a fused cell where some trigger is invalid is "no data". -/
theorem combine_invalid_none (a b : Option ℤ)
    (h : ¬ isValidLevel a ∨ ¬ isValidLevel b) :
    combineLandslideHazards a b = none := by
  rcases h with h | h
  · match a with
    | none => simp [combineLandslideHazards, maskValidRiskLevels, eeImageMax]
    | some x =>
        have hx : ¬ (1 ≤ x ∧ x ≤ 8) := by
          intro hc
          exact h ⟨x, rfl, hc⟩
        simp [combineLandslideHazards, maskValidRiskLevels, hx, eeImageMax]
  · match b with
    | none =>
        simp [combineLandslideHazards, maskValidRiskLevels, eeImageMax]
    | some y =>
        have hy : ¬ (1 ≤ y ∧ y ≤ 8) := by
          intro hc
          exact h ⟨y, rfl, hc⟩
        simp [combineLandslideHazards, maskValidRiskLevels, hy, eeImageMax]

/-- C1 counterexample: at a cell where exactly one trigger is valid
(earthquake level 5, precipitation level 0 out of range) the fused output
is "no data", not the valid trigger's value, because the dyadic `max`
masks its output wherever either input is masked. -/
theorem C1_counterexample :
    isValidLevel (some 5) ∧ ¬ isValidLevel (some 0) ∧
    combineLandslideHazards (some 5) (some 0) = none ∧
    combineLandslideHazards (some 5) (some 0) ≠ some 5 := by
  decide

/-- C1 (amended): at a cell where both triggers are valid (values in [1,8])
the fused value is the maximum of the two trigger values, hence ≥ each
input; at a cell where at least one trigger is invalid — including a cell
valid in exactly one trigger — the fused output is "no data". -/
theorem C1_fusion_maxCombine (a b : Option ℤ) :
    (∀ x y, a = some x → b = some y →
      1 ≤ x ∧ x ≤ 8 → 1 ≤ y ∧ y ≤ 8 →
      combineLandslideHazards a b = some (max x y) ∧
      (∀ z, combineLandslideHazards a b = some z → x ≤ z ∧ y ≤ z)) ∧
    (¬ isValidLevel a ∨ ¬ isValidLevel b →
      combineLandslideHazards a b = none) := by
  constructor
  · intro x y ha hb hx hy
    subst ha
    subst hb
    have hmax := combine_both_valid x y hx.1 hx.2 hy.1 hy.2
    refine ⟨hmax, ?_⟩
    intro z hz
    rw [hmax] at hz
    have : max x y = z := by injection hz
    subst this
    exact ⟨le_max_left x y, le_max_right x y⟩
  · exact combine_invalid_none a b

/-- C1 witness: both conjuncts of the amended fusion theorem at concrete
inputs (triggers 3 and 7, and a pair with an invalid precipitation cell). -/
theorem C1_fusion_maxCombine_witness :
    (combineLandslideHazards (some 3) (some 7) = some (max 3 7) ∧
      (∀ z, combineLandslideHazards (some 3) (some 7) = some z →
        3 ≤ z ∧ 7 ≤ z)) ∧
    combineLandslideHazards (some 6) (some 9) = none :=
  ⟨(C1_fusion_maxCombine (some 3) (some 7)).1 3 7 rfl rfl
      (by decide) (by decide),
    (C1_fusion_maxCombine (some 6) (some 9)).2 (Or.inr (by decide))⟩

/-- C7 counterexample: the 4-tier reclassification applied to a cell that
already holds the 4-tier value 2 returns 1, not 2: it is not the identity
on already-reclassified input. -/
theorem C7_counterexample :
    reclassifyRisk (some 2) = some 1 ∧ reclassifyRisk (some 2) ≠ some 2 := by
  decide

/-- C7 (amended): on a cell whose value already lies in the 4-tier output
scale {1,2,3,4}, the reclassification returns `(v+1)/2` (so 1,2 ↦ 1 and
3,4 ↦ 2, the bins [1,2] and [3,4] being re-applied); it leaves the cell
unchanged exactly when the value is 1. -/
theorem C7_reclassify_on_four_tier (v : ℤ) (h1 : 1 ≤ v) (h4 : v ≤ 4) :
    reclassifyRisk (some v) = some ((v + 1) / 2) ∧
    (reclassifyRisk (some v) = some v ↔ v = 1) := by
  interval_cases v <;> simp_all <;> decide

/-- C7 witness: the amended reclassification theorem at the concrete
already-4-tier value 3. -/
theorem C7_reclassify_on_four_tier_witness :
    reclassifyRisk (some 3) = some ((3 + 1) / 2) ∧
    (reclassifyRisk (some 3) = some 3 ↔ (3 : ℤ) = 1) :=
  C7_reclassify_on_four_tier 3 (by decide) (by decide)

theorem reduceSumBand_getD (vals : List (Option ℚ)) :
    (reduceSumBand vals).getD 0 = (vals.map (fun o => o.getD 0)).sum := by
  have h : (vals.filterMap id).sum = (vals.map (fun o => o.getD 0)).sum := by
    induction vals with
    | nil => simp
    | cons a tl ih => cases a <;> simp [ih]
  unfold reduceSumBand
  by_cases he : (vals.filterMap id).isEmpty
  · have hnil : vals.filterMap id = [] := by
      simpa [List.isEmpty_iff] using he
    rw [hnil] at h
    simp [he, ← h]
  · simp [he, h]

theorem calculateLLGStatistics_eq (cells : List Cell) :
    calculateLLGStatistics cells =
      buildLLGRecord (some (sumTotalPop cells)) (some (sumTierPop 1 cells))
        (some (sumTierPop 2 cells)) (some (sumTierPop 3 cells))
        (some (sumTierPop 4 cells)) := by
  unfold calculateLLGStatistics buildLLGRecord
  rw [reduceSumBand_getD, reduceSumBand_getD, reduceSumBand_getD,
    reduceSumBand_getD, reduceSumBand_getD]
  simp [sumTotalPop, sumTierPop, List.map_map, Function.comp_def]

theorem eeRound_le (x : ℚ) : (eeRound x : ℚ) ≤ x + 1/2 :=
  Int.floor_le (x + 1/2)

theorem lt_eeRound (x : ℚ) : x - 1/2 < (eeRound x : ℚ) := by
  have := Int.lt_floor_add_one (x + 1/2)
  unfold eeRound
  linarith

theorem eeRound_mono {x y : ℚ} (h : x ≤ y) : eeRound x ≤ eeRound y :=
  Int.floor_le_floor (by linarith)

theorem eeRound_nonneg {x : ℚ} (h : 0 ≤ x) : 0 ≤ eeRound x := by
  have h2 : eeRound 0 ≤ eeRound x := eeRound_mono h
  have h0 : eeRound 0 = 0 := by
    unfold eeRound
    rw [Int.floor_eq_iff] <;> norm_num
  omega

theorem eeRound_intCast (n : ℤ) : eeRound (n : ℚ) = n := by
  unfold eeRound
  rw [Int.floor_eq_iff] <;> push_cast <;> constructor <;> linarith

theorem eeRound_eq_zero {x : ℚ} (h0 : 0 ≤ x) (h : x < 1/2) :
    eeRound x = 0 := by
  unfold eeRound
  rw [Int.floor_eq_iff] <;> push_cast <;> constructor <;> linarith

theorem eeRound_zero_bound {x : ℚ} (h0 : 0 ≤ x) (hz : eeRound x = 0) :
    x < 1/2 := by
  have := lt_eeRound x
  rw [hz] at this
  push_cast at this
  linarith

/-- Per cell, each single tier-masked value is at most the population value. -/
theorem cell_tier_le (k : ℤ) (c : Cell) (h : 0 ≤ c.pop.getD 0) :
    (tierBandVal k c).getD 0 ≤ c.pop.getD 0 := by
  obtain ⟨p, r⟩ := c
  cases p with
  | none => simp [tierBandVal]
  | some p =>
      cases r with
      | none => simpa [tierBandVal] using h
      | some r =>
          by_cases hr : r = k <;> simp_all [tierBandVal]

/-- Per cell, each tier-masked value is non-negative. -/
theorem cell_tier_nonneg (k : ℤ) (c : Cell) (h : 0 ≤ c.pop.getD 0) :
    0 ≤ (tierBandVal k c).getD 0 := by
  obtain ⟨p, r⟩ := c
  cases p with
  | none => simp [tierBandVal]
  | some p =>
      cases r with
      | none => simp [tierBandVal]
      | some r =>
          by_cases hr : r = k <;> simp_all [tierBandVal]

/-- Per cell, the four tier-masked values add up to at most the population
value, with equality exactly when the cell is covered. -/
theorem cell_tiers_le (c : Cell) (h : 0 ≤ c.pop.getD 0) :
    (tierBandVal 1 c).getD 0 + (tierBandVal 2 c).getD 0
      + (tierBandVal 3 c).getD 0 + (tierBandVal 4 c).getD 0 ≤ c.pop.getD 0 ∧
    ((tierBandVal 1 c).getD 0 + (tierBandVal 2 c).getD 0
      + (tierBandVal 3 c).getD 0 + (tierBandVal 4 c).getD 0 = c.pop.getD 0 ↔
      coveredCell c) := by
  obtain ⟨p, r⟩ := c
  cases p with
  | none => simp [tierBandVal, coveredCell]
  | some p =>
      cases r with
      | none =>
          simp only [tierBandVal, Option.getD_some, Option.getD_none] at h ⊢
          simp only [coveredCell, Option.getD_some, Option.getD_none]
          constructor
          · simpa using h
          · constructor
            · intro heq
              intro hp
              norm_num at heq
              rw [← heq] at hp
              norm_num at hp
            · intro hcov
              by_cases hp : 0 < p
              · rcases hcov hp with h1 | h1 | h1 | h1 <;> norm_num at h1
              · norm_num
                linarith
      | some r =>
          by_cases h1 : r = 1
          · subst h1
            simp [tierBandVal, coveredCell]
          · by_cases h2 : r = 2
            · subst h2
              simp [tierBandVal, coveredCell]
            · by_cases h3 : r = 3
              · subst h3
                simp [tierBandVal, coveredCell]
              · by_cases h4 : r = 4
                · subst h4
                  simp [tierBandVal, coveredCell]
                · simp only [Option.getD_some] at h
                  simp only [tierBandVal, Option.getD_some, coveredCell,
                    if_neg h1, if_neg h2, if_neg h3, if_neg h4, Option.getD_none]
                  constructor
                  · simpa using h
                  · constructor
                    · intro heq hp
                      norm_num at heq
                      rw [← heq] at hp
                      norm_num at hp
                    · intro hcov
                      by_cases hp : 0 < p
                      · rcases hcov hp with hc | hc | hc | hc <;> exact absurd hc (by exact_mod_cast ‹_›)
                      · norm_num
                        linarith

/-- Summing pointwise-dominated values over a list: the sums are ordered,
with equality exactly when every term agrees. -/
theorem sum_le_sum_with_iff {α : Type} (l : List α) (f g : α → ℚ)
    (h : ∀ c ∈ l, f c ≤ g c) :
    (l.map f).sum ≤ (l.map g).sum ∧
    ((l.map f).sum = (l.map g).sum ↔ ∀ c ∈ l, f c = g c) := by
  induction l with
  | nil => simp
  | cons a tl ih =>
      have ha := h a (by simp)
      obtain ⟨hle, hiff⟩ := ih (fun c hc => h c (by simp [hc]))
      refine ⟨?_, ?_, ?_⟩
      · simp only [List.map_cons, List.sum_cons]
        exact add_le_add ha hle
      · simp only [List.map_cons, List.sum_cons]
        intro heq c hc
        have h1 : f a = g a := le_antisymm ha (by linarith)
        have h2 : (tl.map f).sum = (tl.map g).sum := by linarith
        rcases List.mem_cons.mp hc with rfl | hc
        · exact h1
        · exact (hiff.mp h2) c hc
      · intro hall
        simp only [List.map_cons, List.sum_cons]
        rw [hall a (by simp), hiff.mpr (fun c hc => hall c (by simp [hc]))]

theorem sumTierPop_nonneg (k : ℤ) (cells : List Cell) (h : popsNonneg cells) :
    0 ≤ sumTierPop k cells := by
  unfold sumTierPop
  refine List.sum_nonneg ?_
  intro x hx
  obtain ⟨c, hc, rfl⟩ := List.mem_map.mp hx
  exact cell_tier_nonneg k c (h c hc)

theorem sumTotalPop_nonneg (cells : List Cell) (h : popsNonneg cells) :
    0 ≤ sumTotalPop cells := by
  unfold sumTotalPop
  refine List.sum_nonneg ?_
  intro x hx
  obtain ⟨c, hc, rfl⟩ := List.mem_map.mp hx
  exact h c hc

theorem sumTierPop_le_total (k : ℤ) (cells : List Cell) (h : popsNonneg cells) :
    sumTierPop k cells ≤ sumTotalPop cells := by
  unfold sumTierPop sumTotalPop
  exact (sum_le_sum_with_iff cells _ _ (fun c hc => cell_tier_le k c (h c hc))).1

theorem sumTierPop_split (cells : List Cell) :
    sumTierPop 1 cells + sumTierPop 2 cells + sumTierPop 3 cells
      + sumTierPop 4 cells
      = (cells.map (fun c => (tierBandVal 1 c).getD 0 + (tierBandVal 2 c).getD 0
          + (tierBandVal 3 c).getD 0 + (tierBandVal 4 c).getD 0)).sum := by
  unfold sumTierPop
  induction cells with
  | nil => simp
  | cons a tl ih =>
      simp only [List.map_cons, List.sum_cons]
      linarith [ih]

/-- The unrounded tier-sum invariant with its exact equality condition. -/
theorem tiers_le_total (cells : List Cell) (h : popsNonneg cells) :
    sumTierPop 1 cells + sumTierPop 2 cells + sumTierPop 3 cells
      + sumTierPop 4 cells ≤ sumTotalPop cells ∧
    (sumTierPop 1 cells + sumTierPop 2 cells + sumTierPop 3 cells
      + sumTierPop 4 cells = sumTotalPop cells ↔ ∀ c ∈ cells, coveredCell c) := by
  have key := sum_le_sum_with_iff cells
    (fun c => (tierBandVal 1 c).getD 0 + (tierBandVal 2 c).getD 0
      + (tierBandVal 3 c).getD 0 + (tierBandVal 4 c).getD 0)
    (fun c => c.pop.getD 0)
    (fun c hc => (cell_tiers_le c (h c hc)).1)
  rw [sumTierPop_split]
  unfold sumTotalPop
  refine ⟨key.1, key.2.trans ?_⟩
  constructor
  · intro hall c hc
    exact ((cell_tiers_le c (h c hc)).2).mp (hall c hc)
  · intro hall c hc
    exact ((cell_tiers_le c (h c hc)).2).mpr (hall c hc)

/-- Rounding drift bound: the four per-band rounded tier sums exceed the
rounded total by at most 2. -/
theorem roundSum_le {t1 t2 t3 t4 T : ℚ} (h1 : 0 ≤ t1) (h2 : 0 ≤ t2)
    (h3 : 0 ≤ t3) (h4 : 0 ≤ t4) (hle : t1 + t2 + t3 + t4 ≤ T) :
    eeRound t1 + eeRound t2 + eeRound t3 + eeRound t4 ≤ eeRound T + 2 := by
  have a1 := eeRound_le t1
  have a2 := eeRound_le t2
  have a3 := eeRound_le t3
  have a4 := eeRound_le t4
  have b := lt_eeRound T
  have hq : ((eeRound t1 + eeRound t2 + eeRound t3 + eeRound t4 : ℤ) : ℚ)
      < ((eeRound T + 3 : ℤ) : ℚ) := by
    push_cast
    linarith
  have hz : eeRound t1 + eeRound t2 + eeRound t3 + eeRound t4 < eeRound T + 3 := by
    exact_mod_cast hq
  omega

/-- The full record of the zone `cellsPoint6`: band sums 1.2 (total),
0.6 (tier 1) and 0.6 (tier 2) round to 1, 1 and 1. -/
theorem calc_cellsPoint6 :
    calculateLLGStatistics cellsPoint6 =
      { totalPop := 1, lowPop := 1, mediumPop := 1, highPop := 0,
        veryHighPop := 0, lowRatio := 1, mediumRatio := 1, highRatio := 0,
        veryHighRatio := 0, riskScore := 3 } := by
  rw [calculateLLGStatistics_eq]
  have h0 : sumTotalPop cellsPoint6 = 6/5 := by
    norm_num [sumTotalPop, cellsPoint6]
  have h1 : sumTierPop 1 cellsPoint6 = 3/5 := by
    norm_num [sumTierPop, cellsPoint6, tierBandVal]
  have h2 : sumTierPop 2 cellsPoint6 = 3/5 := by
    norm_num [sumTierPop, cellsPoint6, tierBandVal]
  have h3 : sumTierPop 3 cellsPoint6 = 0 := by
    norm_num [sumTierPop, cellsPoint6, tierBandVal]
  have h4 : sumTierPop 4 cellsPoint6 = 0 := by
    norm_num [sumTierPop, cellsPoint6, tierBandVal]
  rw [h0, h1, h2, h3, h4]
  unfold buildLLGRecord
  norm_num [eeRound, riskWeights]

/-- C3 counterexample: on the zone `cellsPoint6`, the recorded per-tier
populations sum to 2 while the recorded total population is 1: the
invariant Σ tier-population ≤ total population fails on the rounded record,
even though every populated cell lies in a valid tier. -/
theorem C3_counterexample :
    (calculateLLGStatistics cellsPoint6).totalPop = 1 ∧
    (calculateLLGStatistics cellsPoint6).lowPop = 1 ∧
    (calculateLLGStatistics cellsPoint6).mediumPop = 1 ∧
    (∀ c ∈ cellsPoint6, coveredCell c) ∧
    ¬ ((calculateLLGStatistics cellsPoint6).lowPop
        + (calculateLLGStatistics cellsPoint6).mediumPop
        + (calculateLLGStatistics cellsPoint6).highPop
        + (calculateLLGStatistics cellsPoint6).veryHighPop
        ≤ (calculateLLGStatistics cellsPoint6).totalPop) := by
  rw [calc_cellsPoint6]
  refine ⟨rfl, rfl, rfl, ?_, ?_⟩
  · intro c hc
    simp only [cellsPoint6, List.mem_cons, List.not_mem_nil, or_false] at hc
    rcases hc with rfl | rfl <;> norm_num [coveredCell]
  · norm_num

/-- C3 (amended): for every zone with non-negative population cells, the
tier-sum invariant holds for the exact (pre-rounding) band sums — the four
tier band sums total at most the total-population band sum, with equality
exactly when every populated valid cell lies in some valid hazard tier.
On the recorded (per-band rounded) counts only the weaker bound
Σ tier-population ≤ total population + 2 holds; rounding can push the
recorded tier sum above the recorded total. -/
theorem C3_tierSum_invariant (cells : List Cell) (h : popsNonneg cells) :
    sumTierPop 1 cells + sumTierPop 2 cells + sumTierPop 3 cells
      + sumTierPop 4 cells ≤ sumTotalPop cells ∧
    (sumTierPop 1 cells + sumTierPop 2 cells + sumTierPop 3 cells
      + sumTierPop 4 cells = sumTotalPop cells ↔ ∀ c ∈ cells, coveredCell c) ∧
    (calculateLLGStatistics cells).lowPop + (calculateLLGStatistics cells).mediumPop
      + (calculateLLGStatistics cells).highPop
      + (calculateLLGStatistics cells).veryHighPop
      ≤ (calculateLLGStatistics cells).totalPop + 2 := by
  obtain ⟨hle, hiff⟩ := tiers_le_total cells h
  refine ⟨hle, hiff, ?_⟩
  rw [calculateLLGStatistics_eq]
  unfold buildLLGRecord
  simp only [Option.getD_some]
  exact roundSum_le (sumTierPop_nonneg 1 cells h) (sumTierPop_nonneg 2 cells h)
    (sumTierPop_nonneg 3 cells h) (sumTierPop_nonneg 4 cells h) hle

/-- C3 witness: the amended invariant evaluated on a concrete two-cell zone
with populations 2 (tier 1) and 5 (no valid tier). -/
theorem C3_tierSum_invariant_witness :
    (sumTierPop 1 [{ pop := some 2, risk := some 1 }, { pop := some 5, risk := none }]
      + sumTierPop 2 [{ pop := some 2, risk := some 1 }, { pop := some 5, risk := none }]
      + sumTierPop 3 [{ pop := some 2, risk := some 1 }, { pop := some 5, risk := none }]
      + sumTierPop 4 [{ pop := some 2, risk := some 1 }, { pop := some 5, risk := none }]
      ≤ sumTotalPop [{ pop := some 2, risk := some 1 }, { pop := some 5, risk := none }]) ∧
    ((sumTierPop 1 [{ pop := some 2, risk := some 1 }, { pop := some 5, risk := none }]
      + sumTierPop 2 [{ pop := some 2, risk := some 1 }, { pop := some 5, risk := none }]
      + sumTierPop 3 [{ pop := some 2, risk := some 1 }, { pop := some 5, risk := none }]
      + sumTierPop 4 [{ pop := some 2, risk := some 1 }, { pop := some 5, risk := none }]
      = sumTotalPop [{ pop := some 2, risk := some 1 }, { pop := some 5, risk := none }])
      ↔ ∀ c ∈ [{ pop := some 2, risk := some 1 },
          ({ pop := some 5, risk := none } : Cell)], coveredCell c) ∧
    (calculateLLGStatistics [{ pop := some 2, risk := some 1 },
        { pop := some 5, risk := none }]).lowPop
      + (calculateLLGStatistics [{ pop := some 2, risk := some 1 },
        { pop := some 5, risk := none }]).mediumPop
      + (calculateLLGStatistics [{ pop := some 2, risk := some 1 },
        { pop := some 5, risk := none }]).highPop
      + (calculateLLGStatistics [{ pop := some 2, risk := some 1 },
        { pop := some 5, risk := none }]).veryHighPop
      ≤ (calculateLLGStatistics [{ pop := some 2, risk := some 1 },
        { pop := some 5, risk := none }]).totalPop + 2 :=
  C3_tierSum_invariant
    [{ pop := some 2, risk := some 1 }, { pop := some 5, risk := none }]
    (by decide)

theorem llg_fields (cells : List Cell) :
    (calculateLLGStatistics cells).totalPop = eeRound (sumTotalPop cells) ∧
    (calculateLLGStatistics cells).lowPop = eeRound (sumTierPop 1 cells) ∧
    (calculateLLGStatistics cells).mediumPop = eeRound (sumTierPop 2 cells) ∧
    (calculateLLGStatistics cells).highPop = eeRound (sumTierPop 3 cells) ∧
    (calculateLLGStatistics cells).veryHighPop = eeRound (sumTierPop 4 cells) := by
  rw [calculateLLGStatistics_eq]
  exact ⟨rfl, rfl, rfl, rfl, rfl⟩

theorem llg_ratios (cells : List Cell) :
    (calculateLLGStatistics cells).lowRatio
      = ((calculateLLGStatistics cells).lowPop : ℚ)
        / ((safeDenom (calculateLLGStatistics cells) : ℤ) : ℚ) ∧
    (calculateLLGStatistics cells).mediumRatio
      = ((calculateLLGStatistics cells).mediumPop : ℚ)
        / ((safeDenom (calculateLLGStatistics cells) : ℤ) : ℚ) ∧
    (calculateLLGStatistics cells).highRatio
      = ((calculateLLGStatistics cells).highPop : ℚ)
        / ((safeDenom (calculateLLGStatistics cells) : ℤ) : ℚ) ∧
    (calculateLLGStatistics cells).veryHighRatio
      = ((calculateLLGStatistics cells).veryHighPop : ℚ)
        / ((safeDenom (calculateLLGStatistics cells) : ℤ) : ℚ) ∧
    (calculateLLGStatistics cells).riskScore
      = (calculateLLGStatistics cells).lowRatio * riskWeights.low
        + (calculateLLGStatistics cells).mediumRatio * riskWeights.medium
        + (calculateLLGStatistics cells).highRatio * riskWeights.high
        + (calculateLLGStatistics cells).veryHighRatio * riskWeights.veryHigh := by
  rw [calculateLLGStatistics_eq]
  exact ⟨rfl, rfl, rfl, rfl, rfl⟩

theorem tierPops_zero_of_total_zero (cells : List Cell) (h : popsNonneg cells)
    (hz : (calculateLLGStatistics cells).totalPop = 0) :
    (calculateLLGStatistics cells).lowPop = 0 ∧
    (calculateLLGStatistics cells).mediumPop = 0 ∧
    (calculateLLGStatistics cells).highPop = 0 ∧
    (calculateLLGStatistics cells).veryHighPop = 0 := by
  obtain ⟨ht, h1, h2, h3, h4⟩ := llg_fields cells
  rw [ht] at hz
  have hT := sumTotalPop_nonneg cells h
  have hlt : sumTotalPop cells < 1/2 := eeRound_zero_bound hT hz
  refine ⟨?_, ?_, ?_, ?_⟩
  · rw [h1]
    exact eeRound_eq_zero (sumTierPop_nonneg 1 cells h)
      (lt_of_le_of_lt (sumTierPop_le_total 1 cells h) hlt)
  · rw [h2]
    exact eeRound_eq_zero (sumTierPop_nonneg 2 cells h)
      (lt_of_le_of_lt (sumTierPop_le_total 2 cells h) hlt)
  · rw [h3]
    exact eeRound_eq_zero (sumTierPop_nonneg 3 cells h)
      (lt_of_le_of_lt (sumTierPop_le_total 3 cells h) hlt)
  · rw [h4]
    exact eeRound_eq_zero (sumTierPop_nonneg 4 cells h)
      (lt_of_le_of_lt (sumTierPop_le_total 4 cells h) hlt)

theorem fcell_exposed_nonneg (c : FCell) (h : 0 ≤ c.pop.getD 0) :
    0 ≤ (exposedBandVal c).getD 0 := by
  obtain ⟨p, d⟩ := c
  cases p with
  | none => simp [exposedBandVal]
  | some p =>
      cases d with
      | none => simp [exposedBandVal, floodMaskVal]
      | some d =>
          by_cases hd : 0 < d <;> simp_all [exposedBandVal, floodMaskVal]

theorem fcell_exposed_le (c : FCell) (h : 0 ≤ c.pop.getD 0) :
    (exposedBandVal c).getD 0 ≤ c.pop.getD 0 := by
  obtain ⟨p, d⟩ := c
  cases p with
  | none => simp [exposedBandVal]
  | some p =>
      cases d with
      | none => simpa [exposedBandVal, floodMaskVal] using h
      | some d =>
          by_cases hd : 0 < d <;> simp_all [exposedBandVal, floodMaskVal]

theorem fSumTotalPop_nonneg (cells : List FCell) (h : fpopsNonneg cells) :
    0 ≤ fSumTotalPop cells := by
  unfold fSumTotalPop
  refine List.sum_nonneg ?_
  intro x hx
  obtain ⟨c, hc, rfl⟩ := List.mem_map.mp hx
  exact h c hc

theorem fSumExposed_nonneg (cells : List FCell) (h : fpopsNonneg cells) :
    0 ≤ fSumExposed cells := by
  unfold fSumExposed
  refine List.sum_nonneg ?_
  intro x hx
  obtain ⟨c, hc, rfl⟩ := List.mem_map.mp hx
  exact fcell_exposed_nonneg c (h c hc)

theorem fSumExposed_le_total (cells : List FCell) (h : fpopsNonneg cells) :
    fSumExposed cells ≤ fSumTotalPop cells := by
  unfold fSumExposed fSumTotalPop
  exact (sum_le_sum_with_iff cells _ _ (fun c hc => fcell_exposed_le c (h c hc))).1

theorem calculateFloodLLGStatistics_eq (cells : List FCell) :
    calculateFloodLLGStatistics cells =
      buildFloodRecord (some (fSumTotalPop cells)) (some (fSumExposed cells))
        (some ((cells.map (fun c => (floodMaskVal c).getD 0)).sum)) := by
  unfold calculateFloodLLGStatistics buildFloodRecord
  rw [reduceSumBand_getD, reduceSumBand_getD, reduceSumBand_getD]
  simp [fSumTotalPop, fSumExposed, List.map_map, Function.comp_def]

theorem flood_fields (cells : List FCell) :
    (calculateFloodLLGStatistics cells).totalPop = eeRound (fSumTotalPop cells) ∧
    (calculateFloodLLGStatistics cells).exposedPop = eeRound (fSumExposed cells) ∧
    (calculateFloodLLGStatistics cells).exposureRatio
      = (if 0 < (calculateFloodLLGStatistics cells).totalPop
          then ((calculateFloodLLGStatistics cells).exposedPop : ℚ)
            / ((calculateFloodLLGStatistics cells).totalPop : ℚ)
          else 0) ∧
    (calculateFloodLLGStatistics cells).exposureDensity
      = (if 0 < (calculateFloodLLGStatistics cells).floodAreaKm2
          then ((calculateFloodLLGStatistics cells).exposedPop : ℚ)
            / (calculateFloodLLGStatistics cells).floodAreaKm2
          else 0) := by
  rw [calculateFloodLLGStatistics_eq]
  exact ⟨rfl, rfl, rfl, rfl⟩

/-- The full record of the zone `cellsUncovered`. -/
theorem calc_cellsUncovered :
    calculateLLGStatistics cellsUncovered =
      { totalPop := 100, lowPop := 0, mediumPop := 0, highPop := 0,
        veryHighPop := 0, lowRatio := 0, mediumRatio := 0, highRatio := 0,
        veryHighRatio := 0, riskScore := 0 } := by
  rw [calculateLLGStatistics_eq]
  have h0 : sumTotalPop cellsUncovered = 100 := by
    norm_num [sumTotalPop, cellsUncovered]
  have h1 : sumTierPop 1 cellsUncovered = 0 := by
    norm_num [sumTierPop, cellsUncovered, tierBandVal]
  have h2 : sumTierPop 2 cellsUncovered = 0 := by
    norm_num [sumTierPop, cellsUncovered, tierBandVal]
  have h3 : sumTierPop 3 cellsUncovered = 0 := by
    norm_num [sumTierPop, cellsUncovered, tierBandVal]
  have h4 : sumTierPop 4 cellsUncovered = 0 := by
    norm_num [sumTierPop, cellsUncovered, tierBandVal]
  rw [h0, h1, h2, h3, h4]
  unfold buildLLGRecord
  norm_num [eeRound, riskWeights]

/-- C4 counterexample: a zone with positive population entirely outside the
valid hazard tiers gets risk score 0, below the minimum tier weight, so
the score does not lie in [min weight, max weight] whenever total
population is positive. -/
theorem C4_counterexample :
    0 < (calculateLLGStatistics cellsUncovered).totalPop ∧
    (calculateLLGStatistics cellsUncovered).riskScore = 0 ∧
    ¬ (riskWeights.low ≤ (calculateLLGStatistics cellsUncovered).riskScore ∧
      (calculateLLGStatistics cellsUncovered).riskScore ≤ riskWeights.veryHigh) := by
  rw [calc_cellsUncovered]
  norm_num [riskWeights]

/-- C4 (amended): the risk score equals the tier-population weighted sum
divided by the guarded denominator (`safePop`, which is the total
population when positive), with weights the strictly increasing sequence
1,2,3,4 in tier order; the score is 0 whenever the recorded total
population is 0; and it lies within [min tier weight, max tier weight]
when the total population is positive AND the recorded tier populations
account for the whole recorded total — with uncovered population or
rounding drift the score can leave that interval. -/
theorem C4_weighted_risk_score (cells : List Cell) (h : popsNonneg cells) :
    (calculateLLGStatistics cells).riskScore
      = (((calculateLLGStatistics cells).lowPop : ℚ) * riskWeights.low
        + ((calculateLLGStatistics cells).mediumPop : ℚ) * riskWeights.medium
        + ((calculateLLGStatistics cells).highPop : ℚ) * riskWeights.high
        + ((calculateLLGStatistics cells).veryHighPop : ℚ) * riskWeights.veryHigh)
        / ((safeDenom (calculateLLGStatistics cells) : ℤ) : ℚ) ∧
    riskWeights.low = 1 ∧ riskWeights.medium = 2 ∧ riskWeights.high = 3 ∧
    riskWeights.veryHigh = 4 ∧
    ((calculateLLGStatistics cells).totalPop = 0 →
      (calculateLLGStatistics cells).riskScore = 0) ∧
    (0 < (calculateLLGStatistics cells).totalPop →
      (calculateLLGStatistics cells).lowPop + (calculateLLGStatistics cells).mediumPop
          + (calculateLLGStatistics cells).highPop
          + (calculateLLGStatistics cells).veryHighPop
        = (calculateLLGStatistics cells).totalPop →
      riskWeights.low ≤ (calculateLLGStatistics cells).riskScore ∧
      (calculateLLGStatistics cells).riskScore ≤ riskWeights.veryHigh) := by
  obtain ⟨ht, hl, hm, hh, hv⟩ := llg_fields cells
  obtain ⟨r1, r2, r3, r4, rs⟩ := llg_ratios cells
  have hd : 0 < safeDenom (calculateLLGStatistics cells) := by
    unfold safeDenom
    split <;> omega
  have hdQ : (0:ℚ) < ((safeDenom (calculateLLGStatistics cells) : ℤ) : ℚ) := by
    exact_mod_cast hd
  have hdne : ((safeDenom (calculateLLGStatistics cells) : ℤ) : ℚ) ≠ 0 :=
    ne_of_gt hdQ
  have hscore : (calculateLLGStatistics cells).riskScore
      = (((calculateLLGStatistics cells).lowPop : ℚ) * riskWeights.low
        + ((calculateLLGStatistics cells).mediumPop : ℚ) * riskWeights.medium
        + ((calculateLLGStatistics cells).highPop : ℚ) * riskWeights.high
        + ((calculateLLGStatistics cells).veryHighPop : ℚ) * riskWeights.veryHigh)
        / ((safeDenom (calculateLLGStatistics cells) : ℤ) : ℚ) := by
    rw [rs, r1, r2, r3, r4]
    field_simp
  refine ⟨hscore, rfl, rfl, rfl, rfl, ?_, ?_⟩
  · intro hz
    obtain ⟨z1, z2, z3, z4⟩ := tierPops_zero_of_total_zero cells h hz
    rw [hscore, z1, z2, z3, z4]
    norm_num
  · intro hpos hsum
    have hsafe : safeDenom (calculateLLGStatistics cells)
        = (calculateLLGStatistics cells).totalPop := by
      unfold safeDenom
      rw [if_pos hpos]
    have hn1 : 0 ≤ (calculateLLGStatistics cells).lowPop := by
      rw [hl]
      exact eeRound_nonneg (sumTierPop_nonneg 1 cells h)
    have hn2 : 0 ≤ (calculateLLGStatistics cells).mediumPop := by
      rw [hm]
      exact eeRound_nonneg (sumTierPop_nonneg 2 cells h)
    have hn3 : 0 ≤ (calculateLLGStatistics cells).highPop := by
      rw [hh]
      exact eeRound_nonneg (sumTierPop_nonneg 3 cells h)
    have hn4 : 0 ≤ (calculateLLGStatistics cells).veryHighPop := by
      rw [hv]
      exact eeRound_nonneg (sumTierPop_nonneg 4 cells h)
    have hnQ : (0:ℚ) < ((calculateLLGStatistics cells).totalPop : ℚ) := by
      exact_mod_cast hpos
    have hsumQ : ((calculateLLGStatistics cells).lowPop : ℚ)
        + ((calculateLLGStatistics cells).mediumPop : ℚ)
        + ((calculateLLGStatistics cells).highPop : ℚ)
        + ((calculateLLGStatistics cells).veryHighPop : ℚ)
        = ((calculateLLGStatistics cells).totalPop : ℚ) := by
      exact_mod_cast hsum
    have hq1 : (0:ℚ) ≤ ((calculateLLGStatistics cells).lowPop : ℚ) := by
      exact_mod_cast hn1
    have hq2 : (0:ℚ) ≤ ((calculateLLGStatistics cells).mediumPop : ℚ) := by
      exact_mod_cast hn2
    have hq3 : (0:ℚ) ≤ ((calculateLLGStatistics cells).highPop : ℚ) := by
      exact_mod_cast hn3
    have hq4 : (0:ℚ) ≤ ((calculateLLGStatistics cells).veryHighPop : ℚ) := by
      exact_mod_cast hn4
    rw [hscore, hsafe]
    constructor
    · rw [le_div_iff hnQ]
      simp only [riskWeights]
      linarith
    · rw [div_le_iff hnQ]
      simp only [riskWeights]
      linarith

/-- C4 witness: the amended score theorem on a one-cell zone (population 2
in tier 3). -/
theorem C4_weighted_risk_score_witness :
    (calculateLLGStatistics cellsWhole).riskScore
      = (((calculateLLGStatistics cellsWhole).lowPop : ℚ) * riskWeights.low
        + ((calculateLLGStatistics cellsWhole).mediumPop : ℚ) * riskWeights.medium
        + ((calculateLLGStatistics cellsWhole).highPop : ℚ) * riskWeights.high
        + ((calculateLLGStatistics cellsWhole).veryHighPop : ℚ) * riskWeights.veryHigh)
        / ((safeDenom (calculateLLGStatistics cellsWhole) : ℤ) : ℚ) ∧
    riskWeights.low = 1 ∧ riskWeights.medium = 2 ∧ riskWeights.high = 3 ∧
    riskWeights.veryHigh = 4 ∧
    ((calculateLLGStatistics cellsWhole).totalPop = 0 →
      (calculateLLGStatistics cellsWhole).riskScore = 0) ∧
    (0 < (calculateLLGStatistics cellsWhole).totalPop →
      (calculateLLGStatistics cellsWhole).lowPop
          + (calculateLLGStatistics cellsWhole).mediumPop
          + (calculateLLGStatistics cellsWhole).highPop
          + (calculateLLGStatistics cellsWhole).veryHighPop
        = (calculateLLGStatistics cellsWhole).totalPop →
      riskWeights.low ≤ (calculateLLGStatistics cellsWhole).riskScore ∧
      (calculateLLGStatistics cellsWhole).riskScore ≤ riskWeights.veryHigh) :=
  C4_weighted_risk_score cellsWhole (by decide)

/-- C5: a zone whose reduction yields recorded total population 0 reports
every tier population 0, every tier ratio 0, risk score 0 and a guarded
denominator of 1 (landslide pipeline), and reports exposed population 0,
exposure ratio 0 and exposure density 0 (flood pipeline) — the
zero-division guards take their fallback branch, no division by zero is
performed. -/
theorem C5_zero_population :
    (∀ cells : List Cell, popsNonneg cells →
      (calculateLLGStatistics cells).totalPop = 0 →
      (calculateLLGStatistics cells).lowPop = 0 ∧
      (calculateLLGStatistics cells).mediumPop = 0 ∧
      (calculateLLGStatistics cells).highPop = 0 ∧
      (calculateLLGStatistics cells).veryHighPop = 0 ∧
      (calculateLLGStatistics cells).lowRatio = 0 ∧
      (calculateLLGStatistics cells).mediumRatio = 0 ∧
      (calculateLLGStatistics cells).highRatio = 0 ∧
      (calculateLLGStatistics cells).veryHighRatio = 0 ∧
      (calculateLLGStatistics cells).riskScore = 0 ∧
      safeDenom (calculateLLGStatistics cells) = 1) ∧
    (∀ cells : List FCell, fpopsNonneg cells →
      (calculateFloodLLGStatistics cells).totalPop = 0 →
      (calculateFloodLLGStatistics cells).exposedPop = 0 ∧
      (calculateFloodLLGStatistics cells).exposureRatio = 0 ∧
      (calculateFloodLLGStatistics cells).exposureDensity = 0) := by
  constructor
  · intro cells h hz
    obtain ⟨z1, z2, z3, z4⟩ := tierPops_zero_of_total_zero cells h hz
    obtain ⟨r1, r2, r3, r4, rs⟩ := llg_ratios cells
    have hsafe : safeDenom (calculateLLGStatistics cells) = 1 := by
      unfold safeDenom
      rw [hz]
      norm_num
    refine ⟨z1, z2, z3, z4, ?_, ?_, ?_, ?_, ?_, hsafe⟩
    · rw [r1, z1]
      norm_num
    · rw [r2, z2]
      norm_num
    · rw [r3, z3]
      norm_num
    · rw [r4, z4]
      norm_num
    · rw [rs, r1, r2, r3, r4, z1, z2, z3, z4]
      norm_num
  · intro cells h hz
    obtain ⟨ht, he, hr, hdn⟩ := flood_fields cells
    rw [ht] at hz
    have hT := fSumTotalPop_nonneg cells h
    have hlt : fSumTotalPop cells < 1/2 := eeRound_zero_bound hT hz
    have hez : (calculateFloodLLGStatistics cells).exposedPop = 0 := by
      rw [he]
      exact eeRound_eq_zero (fSumExposed_nonneg cells h)
        (lt_of_le_of_lt (fSumExposed_le_total cells h) hlt)
    refine ⟨hez, ?_, ?_⟩
    · rw [hr, ht, hz]
      norm_num
    · rw [hdn, hez]
      norm_num

/-- C5 witness: the zero-population theorem on a landslide zone and a flood
zone both having only "no data" population cells. -/
theorem C5_zero_population_witness :
    ((calculateLLGStatistics [{ pop := none, risk := some 2 }]).lowPop = 0 ∧
      (calculateLLGStatistics [{ pop := none, risk := some 2 }]).mediumPop = 0 ∧
      (calculateLLGStatistics [{ pop := none, risk := some 2 }]).highPop = 0 ∧
      (calculateLLGStatistics [{ pop := none, risk := some 2 }]).veryHighPop = 0 ∧
      (calculateLLGStatistics [{ pop := none, risk := some 2 }]).lowRatio = 0 ∧
      (calculateLLGStatistics [{ pop := none, risk := some 2 }]).mediumRatio = 0 ∧
      (calculateLLGStatistics [{ pop := none, risk := some 2 }]).highRatio = 0 ∧
      (calculateLLGStatistics [{ pop := none, risk := some 2 }]).veryHighRatio = 0 ∧
      (calculateLLGStatistics [{ pop := none, risk := some 2 }]).riskScore = 0 ∧
      safeDenom (calculateLLGStatistics [{ pop := none, risk := some 2 }]) = 1) ∧
    ((calculateFloodLLGStatistics [{ pop := none, depth := some 3 }]).exposedPop = 0 ∧
      (calculateFloodLLGStatistics [{ pop := none, depth := some 3 }]).exposureRatio = 0 ∧
      (calculateFloodLLGStatistics [{ pop := none, depth := some 3 }]).exposureDensity = 0) :=
  ⟨C5_zero_population.1 [{ pop := none, risk := some 2 }] (by decide)
      (by norm_num [calculateLLGStatistics_eq, buildLLGRecord, sumTotalPop, eeRound]),
    C5_zero_population.2 [{ pop := none, depth := some 3 }] (by decide)
      (by norm_num [calculateFloodLLGStatistics_eq, buildFloodRecord, fSumTotalPop, eeRound])⟩

/-- C6 counterexample: on the zone `cellsPoint6` (non-negative populations
0.6 in tier 1 and 0.6 in tier 2) the tier ratios sum to 2, exceeding 1:
per-band rounding (each 0.6 rounds to 1, the total 1.2 rounds to 1) breaks
the Σ tier ratios ≤ 1 invariant. -/
theorem C6_counterexample :
    popsNonneg cellsPoint6 ∧
    ¬ ((calculateLLGStatistics cellsPoint6).lowRatio
        + (calculateLLGStatistics cellsPoint6).mediumRatio
        + (calculateLLGStatistics cellsPoint6).highRatio
        + (calculateLLGStatistics cellsPoint6).veryHighRatio ≤ 1) := by
  constructor
  · intro c hc
    simp only [cellsPoint6, List.mem_cons, List.not_mem_nil, or_false] at hc
    rcases hc with rfl | rfl <;> norm_num
  · rw [calc_cellsPoint6]
    norm_num

/-- C6 (amended): for every zone with non-negative population cells, each
tier ratio lies in [0,1]; the sum of the four tier ratios is bounded by
1 + 2 / safePop (1 exact-sum share plus at most 2 units of per-band
rounding drift spread over the guarded denominator), not by 1. -/
theorem C6_tier_ratio_bounds (cells : List Cell) (h : popsNonneg cells) :
    (0 ≤ (calculateLLGStatistics cells).lowRatio ∧
      (calculateLLGStatistics cells).lowRatio ≤ 1) ∧
    (0 ≤ (calculateLLGStatistics cells).mediumRatio ∧
      (calculateLLGStatistics cells).mediumRatio ≤ 1) ∧
    (0 ≤ (calculateLLGStatistics cells).highRatio ∧
      (calculateLLGStatistics cells).highRatio ≤ 1) ∧
    (0 ≤ (calculateLLGStatistics cells).veryHighRatio ∧
      (calculateLLGStatistics cells).veryHighRatio ≤ 1) ∧
    (calculateLLGStatistics cells).lowRatio
      + (calculateLLGStatistics cells).mediumRatio
      + (calculateLLGStatistics cells).highRatio
      + (calculateLLGStatistics cells).veryHighRatio
      ≤ 1 + 2 / ((safeDenom (calculateLLGStatistics cells) : ℤ) : ℚ) := by
  obtain ⟨ht, hl, hm, hh, hv⟩ := llg_fields cells
  obtain ⟨r1, r2, r3, r4, rs⟩ := llg_ratios cells
  have hd : 0 < safeDenom (calculateLLGStatistics cells) := by
    unfold safeDenom
    split <;> omega
  have hdQ : (0:ℚ) < ((safeDenom (calculateLLGStatistics cells) : ℤ) : ℚ) := by
    exact_mod_cast hd
  have htz : 0 ≤ (calculateLLGStatistics cells).totalPop := by
    rw [ht]
    exact eeRound_nonneg (sumTotalPop_nonneg cells h)
  have hpop_le : ∀ k : ℤ, eeRound (sumTierPop k cells)
      ≤ safeDenom (calculateLLGStatistics cells) := by
    intro k
    by_cases hp : 0 < (calculateLLGStatistics cells).totalPop
    · have : safeDenom (calculateLLGStatistics cells)
          = (calculateLLGStatistics cells).totalPop := by
        unfold safeDenom
        rw [if_pos hp]
      rw [this, ht]
      exact eeRound_mono (sumTierPop_le_total k cells h)
    · have hz : (calculateLLGStatistics cells).totalPop = 0 := by omega
      have hlt : sumTierPop k cells < 1/2 := by
        rw [ht] at hz
        exact lt_of_le_of_lt (sumTierPop_le_total k cells h)
          (eeRound_zero_bound (sumTotalPop_nonneg cells h) hz)
      have : eeRound (sumTierPop k cells) = 0 :=
        eeRound_eq_zero (sumTierPop_nonneg k cells h) hlt
      omega
  have hratio : ∀ (r : ℚ) (k : ℤ),
      r = ((eeRound (sumTierPop k cells) : ℤ) : ℚ)
        / ((safeDenom (calculateLLGStatistics cells) : ℤ) : ℚ) →
      0 ≤ r ∧ r ≤ 1 := by
    intro r k hr
    have h0 : (0:ℚ) ≤ ((eeRound (sumTierPop k cells) : ℤ) : ℚ) := by
      exact_mod_cast eeRound_nonneg (sumTierPop_nonneg k cells h)
    have h1 : ((eeRound (sumTierPop k cells) : ℤ) : ℚ)
        ≤ ((safeDenom (calculateLLGStatistics cells) : ℤ) : ℚ) := by
      exact_mod_cast hpop_le k
    constructor
    · rw [hr]
      exact div_nonneg h0 (le_of_lt hdQ)
    · rw [hr, div_le_one hdQ]
      exact h1
  have e1 : (calculateLLGStatistics cells).lowRatio
      = ((eeRound (sumTierPop 1 cells) : ℤ) : ℚ)
        / ((safeDenom (calculateLLGStatistics cells) : ℤ) : ℚ) := by
    rw [r1, hl]
  have e2 : (calculateLLGStatistics cells).mediumRatio
      = ((eeRound (sumTierPop 2 cells) : ℤ) : ℚ)
        / ((safeDenom (calculateLLGStatistics cells) : ℤ) : ℚ) := by
    rw [r2, hm]
  have e3 : (calculateLLGStatistics cells).highRatio
      = ((eeRound (sumTierPop 3 cells) : ℤ) : ℚ)
        / ((safeDenom (calculateLLGStatistics cells) : ℤ) : ℚ) := by
    rw [r3, hh]
  have e4 : (calculateLLGStatistics cells).veryHighRatio
      = ((eeRound (sumTierPop 4 cells) : ℤ) : ℚ)
        / ((safeDenom (calculateLLGStatistics cells) : ℤ) : ℚ) := by
    rw [r4, hv]
  refine ⟨hratio _ 1 e1, hratio _ 2 e2, hratio _ 3 e3, hratio _ 4 e4, ?_⟩
  have hsum : eeRound (sumTierPop 1 cells) + eeRound (sumTierPop 2 cells)
      + eeRound (sumTierPop 3 cells) + eeRound (sumTierPop 4 cells)
      ≤ eeRound (sumTotalPop cells) + 2 :=
    roundSum_le (sumTierPop_nonneg 1 cells h) (sumTierPop_nonneg 2 cells h)
      (sumTierPop_nonneg 3 cells h) (sumTierPop_nonneg 4 cells h)
      (tiers_le_total cells h).1
  have hround_le_safe : eeRound (sumTotalPop cells)
      ≤ safeDenom (calculateLLGStatistics cells) := by
    unfold safeDenom
    rw [← ht]
    split <;> omega
  have hsum2 : eeRound (sumTierPop 1 cells) + eeRound (sumTierPop 2 cells)
      + eeRound (sumTierPop 3 cells) + eeRound (sumTierPop 4 cells)
      ≤ safeDenom (calculateLLGStatistics cells) + 2 := by
    have := hround_le_safe
    omega
  rw [e1, e2, e3, e4, div_add_div_same, div_add_div_same, div_add_div_same]
  rw [div_le_iff hdQ]
  have hsumQ : ((eeRound (sumTierPop 1 cells) : ℤ) : ℚ)
      + ((eeRound (sumTierPop 2 cells) : ℤ) : ℚ)
      + ((eeRound (sumTierPop 3 cells) : ℤ) : ℚ)
      + ((eeRound (sumTierPop 4 cells) : ℤ) : ℚ)
      ≤ ((safeDenom (calculateLLGStatistics cells) : ℤ) : ℚ) + 2 := by
    exact_mod_cast hsum2
  have hexp : (1 + 2 / ((safeDenom (calculateLLGStatistics cells) : ℤ) : ℚ))
      * ((safeDenom (calculateLLGStatistics cells) : ℤ) : ℚ)
      = ((safeDenom (calculateLLGStatistics cells) : ℤ) : ℚ) + 2 := by
    field_simp
  rw [hexp]
  exact hsumQ

/-- C6 witness: the amended ratio-bounds theorem on a one-cell zone
(population 2 in tier 3). -/
theorem C6_tier_ratio_bounds_witness :
    (0 ≤ (calculateLLGStatistics cellsWhole).lowRatio ∧
      (calculateLLGStatistics cellsWhole).lowRatio ≤ 1) ∧
    (0 ≤ (calculateLLGStatistics cellsWhole).mediumRatio ∧
      (calculateLLGStatistics cellsWhole).mediumRatio ≤ 1) ∧
    (0 ≤ (calculateLLGStatistics cellsWhole).highRatio ∧
      (calculateLLGStatistics cellsWhole).highRatio ≤ 1) ∧
    (0 ≤ (calculateLLGStatistics cellsWhole).veryHighRatio ∧
      (calculateLLGStatistics cellsWhole).veryHighRatio ≤ 1) ∧
    (calculateLLGStatistics cellsWhole).lowRatio
      + (calculateLLGStatistics cellsWhole).mediumRatio
      + (calculateLLGStatistics cellsWhole).highRatio
      + (calculateLLGStatistics cellsWhole).veryHighRatio
      ≤ 1 + 2 / ((safeDenom (calculateLLGStatistics cellsWhole) : ℤ) : ℚ) :=
  C6_tier_ratio_bounds cellsWhole (by decide)

theorem mem_insertSorted {α : Type} (key : α → String) (a x : α) (l : List α) :
    x ∈ insertSorted key a l ↔ x = a ∨ x ∈ l := by
  induction l with
  | nil => simp [insertSorted]
  | cons b tl ih =>
      unfold insertSorted
      split
      · simp
      · simp only [List.mem_cons, ih]
        tauto

theorem mem_sortByKey {α : Type} (key : α → String) (x : α) (l : List α) :
    x ∈ sortByKey key l ↔ x ∈ l := by
  induction l with
  | nil => simp [sortByKey]
  | cons a tl ih =>
      unfold sortByKey
      rw [mem_insertSorted]
      simp [ih]

/-- C2: in both aggregation variants, every provincial record re-sums each
absolute count over exactly the member zones of its province; the flood
ratio and density are the guarded quotients of the pooled sums; and the
landslide average risk score is the equally-weighted arithmetic mean of
the member zones' risk scores. -/
theorem C2_provincial_aggregation :
    (∀ (rows : List LLGRow) (r : ProvinceRow),
      r ∈ aggregateToProvinceLevel rows →
      r.totalPop = ((membersOf rows r.province).map LLGRow.llgPop).sum ∧
      r.lowPop = ((membersOf rows r.province).map LLGRow.lowPop).sum ∧
      r.mediumPop = ((membersOf rows r.province).map LLGRow.mediumPop).sum ∧
      r.highPop = ((membersOf rows r.province).map LLGRow.highPop).sum ∧
      r.veryHighPop = ((membersOf rows r.province).map LLGRow.veryHighPop).sum ∧
      r.llgCount = (membersOf rows r.province).length ∧
      0 < (membersOf rows r.province).length ∧
      r.averageRiskScore = ((membersOf rows r.province).map LLGRow.riskScore).sum
        / ((membersOf rows r.province).length : ℚ)) ∧
    (∀ (rows : List FloodRow) (r : FloodProvinceRow),
      r ∈ aggregateFloodToProvinceLevel rows →
      r.totalPop = ((fmembersOf rows r.province).map FloodRow.llgPop).sum ∧
      r.exposedPop = ((fmembersOf rows r.province).map FloodRow.exposedPop).sum ∧
      r.floodArea = ((fmembersOf rows r.province).map FloodRow.floodArea).sum ∧
      r.exposureRatio = (if 0 < r.totalPop then r.exposedPop / r.totalPop else 0) ∧
      r.exposureDensity
        = (if 0 < r.floodArea then r.exposedPop / r.floodArea else 0)) := by
  constructor
  · intro rows r hr
    unfold aggregateToProvinceLevel at hr
    rw [mem_sortByKey] at hr
    obtain ⟨p, hp, rfl⟩ := List.mem_map.mp hr
    obtain ⟨row, hrow, hpe⟩ := List.mem_map.mp (List.mem_dedup.mp hp)
    have hfil : row ∈ membersOf rows p := by
      unfold membersOf
      rw [List.mem_filter]
      exact ⟨hrow, by simp [hpe]⟩
    have hlen : 0 < (membersOf rows p).length :=
      List.length_pos.mpr (List.ne_nil_of_mem hfil)
    have hprov : (provinceRecord rows p).province = p := rfl
    rw [hprov]
    refine ⟨rfl, rfl, rfl, rfl, rfl, rfl, hlen, ?_⟩
    show (if 0 < (membersOf rows p).length
        then ((membersOf rows p).map LLGRow.riskScore).sum
          / (((membersOf rows p).length : ℕ) : ℚ)
        else 0)
      = ((membersOf rows p).map LLGRow.riskScore).sum
        / (((membersOf rows p).length : ℕ) : ℚ)
    rw [if_pos hlen]
  · intro rows r hr
    unfold aggregateFloodToProvinceLevel at hr
    rw [mem_sortByKey] at hr
    obtain ⟨p, hp, rfl⟩ := List.mem_map.mp hr
    exact ⟨rfl, rfl, rfl, rfl, rfl⟩

/-- C2 witness: both aggregation conjuncts applied to one-row inputs in
province "A". -/
theorem C2_provincial_aggregation_witness :
    ((provinceRecord llgRowsW "A").totalPop
      = ((membersOf llgRowsW (provinceRecord llgRowsW "A").province).map
          LLGRow.llgPop).sum ∧
     (provinceRecord llgRowsW "A").lowPop
      = ((membersOf llgRowsW (provinceRecord llgRowsW "A").province).map
          LLGRow.lowPop).sum ∧
     (provinceRecord llgRowsW "A").mediumPop
      = ((membersOf llgRowsW (provinceRecord llgRowsW "A").province).map
          LLGRow.mediumPop).sum ∧
     (provinceRecord llgRowsW "A").highPop
      = ((membersOf llgRowsW (provinceRecord llgRowsW "A").province).map
          LLGRow.highPop).sum ∧
     (provinceRecord llgRowsW "A").veryHighPop
      = ((membersOf llgRowsW (provinceRecord llgRowsW "A").province).map
          LLGRow.veryHighPop).sum ∧
     (provinceRecord llgRowsW "A").llgCount
      = (membersOf llgRowsW (provinceRecord llgRowsW "A").province).length ∧
     0 < (membersOf llgRowsW (provinceRecord llgRowsW "A").province).length ∧
     (provinceRecord llgRowsW "A").averageRiskScore
      = ((membersOf llgRowsW (provinceRecord llgRowsW "A").province).map
          LLGRow.riskScore).sum
        / ((membersOf llgRowsW (provinceRecord llgRowsW "A").province).length : ℚ)) ∧
    ((floodProvinceRecord floodRowsW "A").totalPop
      = ((fmembersOf floodRowsW (floodProvinceRecord floodRowsW "A").province).map
          FloodRow.llgPop).sum ∧
     (floodProvinceRecord floodRowsW "A").exposedPop
      = ((fmembersOf floodRowsW (floodProvinceRecord floodRowsW "A").province).map
          FloodRow.exposedPop).sum ∧
     (floodProvinceRecord floodRowsW "A").floodArea
      = ((fmembersOf floodRowsW (floodProvinceRecord floodRowsW "A").province).map
          FloodRow.floodArea).sum ∧
     (floodProvinceRecord floodRowsW "A").exposureRatio
      = (if 0 < (floodProvinceRecord floodRowsW "A").totalPop
          then (floodProvinceRecord floodRowsW "A").exposedPop
            / (floodProvinceRecord floodRowsW "A").totalPop
          else 0) ∧
     (floodProvinceRecord floodRowsW "A").exposureDensity
      = (if 0 < (floodProvinceRecord floodRowsW "A").floodArea
          then (floodProvinceRecord floodRowsW "A").exposedPop
            / (floodProvinceRecord floodRowsW "A").floodArea
          else 0)) :=
  ⟨C2_provincial_aggregation.1 llgRowsW (provinceRecord llgRowsW "A")
      (by rw [show aggregateToProvinceLevel llgRowsW
            = [provinceRecord llgRowsW "A"] from rfl]
          exact List.mem_singleton.mpr rfl),
    C2_provincial_aggregation.2 floodRowsW (floodProvinceRecord floodRowsW "A")
      (by rw [show aggregateFloodToProvinceLevel floodRowsW
            = [floodProvinceRecord floodRowsW "A"] from rfl]
          exact List.mem_singleton.mpr rfl)⟩

theorem national_fields (cells : List Cell) :
    (calculateNationalRiskTotals cells).low = eeRound (sumTierPop 1 cells) ∧
    (calculateNationalRiskTotals cells).medium = eeRound (sumTierPop 2 cells) ∧
    (calculateNationalRiskTotals cells).high = eeRound (sumTierPop 3 cells) ∧
    (calculateNationalRiskTotals cells).veryHigh = eeRound (sumTierPop 4 cells) := by
  unfold calculateNationalRiskTotals
  rw [reduceSumBand_getD, reduceSumBand_getD, reduceSumBand_getD, reduceSumBand_getD]
  simp [sumTierPop, List.map_map, Function.comp_def]

theorem sumTierPop_append (k : ℤ) (l1 l2 : List Cell) :
    sumTierPop k (l1 ++ l2) = sumTierPop k l1 + sumTierPop k l2 := by
  simp [sumTierPop]

theorem sumTierPop_flatten (k : ℤ) (zones : List (List Cell)) :
    sumTierPop k zones.flatten = (zones.map (sumTierPop k)).sum := by
  induction zones with
  | nil => simp [sumTierPop]
  | cons z zs ih =>
      rw [List.flatten_cons, sumTierPop_append, ih]
      simp

theorem eeRound_intCast_add (n : ℤ) (y : ℚ) :
    eeRound ((n : ℚ) + y) = n + eeRound y := by
  unfold eeRound
  have h : (n : ℚ) + y + 1/2 = (y + 1/2) + (n : ℚ) := by ring
  rw [h, Int.floor_add_int]
  omega

theorem eeRound_sum_eq (xs : List ℚ) (h : ∀ x ∈ xs, ∃ n : ℤ, x = (n : ℚ)) :
    eeRound xs.sum = (xs.map eeRound).sum := by
  induction xs with
  | nil => simpa using eeRound_intCast 0
  | cons a tl ih =>
      obtain ⟨n, hn⟩ := h a (by simp)
      have htl := ih (fun x hx => h x (by simp [hx]))
      simp only [List.sum_cons, List.map_cons]
      rw [hn, eeRound_intCast_add, htl, eeRound_intCast]

theorem int_of_den_one {x : ℚ} (h : x.den = 1) : ∃ n : ℤ, x = (n : ℚ) := by
  refine ⟨x.num, ?_⟩
  conv_lhs => rw [← Rat.num_div_den x]
  rw [h]
  simp

/-- C8 counterexample: on the split region, the national tier-1 total
(rounded once, over the whole region) is 1, while the direct sum of the
zone-level tier-1 populations (each rounded per zone) is 2. -/
theorem C8_counterexample :
    (calculateNationalRiskTotals zonesSplit.flatten).low = 1 ∧
    (zonesSplit.map (fun z => (calculateLLGStatistics z).lowPop)).sum = 2 ∧
    (calculateNationalRiskTotals zonesSplit.flatten).low
      ≠ (zonesSplit.map (fun z => (calculateLLGStatistics z).lowPop)).sum := by
  have h1 : (calculateNationalRiskTotals zonesSplit.flatten).low = 1 := by
    rw [(national_fields zonesSplit.flatten).1]
    have : sumTierPop 1 zonesSplit.flatten = 6/5 := by
      norm_num [zonesSplit, sumTierPop, tierBandVal]
    rw [this]
    norm_num [eeRound]
  have h2 : (zonesSplit.map (fun z => (calculateLLGStatistics z).lowPop)).sum = 2 := by
    have hz : ∀ z ∈ zonesSplit, (calculateLLGStatistics z).lowPop = 1 := by
      intro z hz
      obtain ⟨_, hl, _, _, _⟩ := llg_fields z
      rw [hl]
      simp only [zonesSplit, List.mem_cons, List.not_mem_nil, or_false] at hz
      rcases hz with rfl | rfl <;>
        · have : sumTierPop 1 [({ pop := some (3/5), risk := some 1 } : Cell)] = 3/5 := by
            norm_num [sumTierPop, tierBandVal]
          rw [this]
          norm_num [eeRound]
    rw [List.map_congr_left hz]
    norm_num [zonesSplit]
  refine ⟨h1, h2, ?_⟩
  rw [h1, h2]
  norm_num

/-- C8 (amended): the landslide national totals are an independent
whole-region reduction rounded once per band; they agree with the direct
sum of the zone-level per-tier counts when the zones partition the region
and every zone's tier band sum is already an integer (no per-zone rounding
drift) — with fractional band sums the two computations can differ.  The
flood national exposure is by definition the direct sum of the zone rows'
exposed populations. -/
theorem C8_national_totals (zones : List (List Cell))
    (h : ∀ z ∈ zones, (sumTierPop 1 z).den = 1 ∧ (sumTierPop 2 z).den = 1
      ∧ (sumTierPop 3 z).den = 1 ∧ (sumTierPop 4 z).den = 1) :
    (calculateNationalRiskTotals zones.flatten).low
      = (zones.map (fun z => (calculateLLGStatistics z).lowPop)).sum ∧
    (calculateNationalRiskTotals zones.flatten).medium
      = (zones.map (fun z => (calculateLLGStatistics z).mediumPop)).sum ∧
    (calculateNationalRiskTotals zones.flatten).high
      = (zones.map (fun z => (calculateLLGStatistics z).highPop)).sum ∧
    (calculateNationalRiskTotals zones.flatten).veryHigh
      = (zones.map (fun z => (calculateLLGStatistics z).veryHighPop)).sum ∧
    (∀ rows : List FloodRow,
      calculateNationalExposure rows = (rows.map FloodRow.exposedPop).sum) := by
  obtain ⟨n1, n2, n3, n4⟩ := national_fields zones.flatten
  have key : ∀ k : ℤ, (∀ z ∈ zones, (sumTierPop k z).den = 1) →
      eeRound (sumTierPop k zones.flatten)
        = (zones.map (fun z => eeRound (sumTierPop k z))).sum := by
    intro k hk
    rw [sumTierPop_flatten, eeRound_sum_eq]
    · rw [List.map_map]
      rfl
    · intro x hx
      obtain ⟨z, hz, rfl⟩ := List.mem_map.mp hx
      exact int_of_den_one (hk z hz)
  refine ⟨?_, ?_, ?_, ?_, fun rows => rfl⟩
  · rw [n1, key 1 (fun z hz => (h z hz).1)]
    exact congrArg List.sum (List.map_congr_left
      (fun z _ => ((llg_fields z).2.1).symm))
  · rw [n2, key 2 (fun z hz => (h z hz).2.1)]
    exact congrArg List.sum (List.map_congr_left
      (fun z _ => ((llg_fields z).2.2.1).symm))
  · rw [n3, key 3 (fun z hz => (h z hz).2.2.1)]
    exact congrArg List.sum (List.map_congr_left
      (fun z _ => ((llg_fields z).2.2.2.1).symm))
  · rw [n4, key 4 (fun z hz => (h z hz).2.2.2)]
    exact congrArg List.sum (List.map_congr_left
      (fun z _ => ((llg_fields z).2.2.2.2).symm))

/-- C8 witness: the amended national-totals theorem on two integer-valued
zones. -/
theorem C8_national_totals_witness :
    (calculateNationalRiskTotals zonesWhole.flatten).low
      = (zonesWhole.map (fun z => (calculateLLGStatistics z).lowPop)).sum ∧
    (calculateNationalRiskTotals zonesWhole.flatten).medium
      = (zonesWhole.map (fun z => (calculateLLGStatistics z).mediumPop)).sum ∧
    (calculateNationalRiskTotals zonesWhole.flatten).high
      = (zonesWhole.map (fun z => (calculateLLGStatistics z).highPop)).sum ∧
    (calculateNationalRiskTotals zonesWhole.flatten).veryHigh
      = (zonesWhole.map (fun z => (calculateLLGStatistics z).veryHighPop)).sum ∧
    (∀ rows : List FloodRow,
      calculateNationalExposure rows = (rows.map FloodRow.exposedPop).sum) :=
  C8_national_totals zonesWhole (by
    intro z hz
    simp only [zonesWhole, List.mem_cons, List.not_mem_nil, or_false] at hz
    rcases hz with rfl | rfl <;>
      exact ⟨by norm_num [sumTierPop, tierBandVal],
        by norm_num [sumTierPop, tierBandVal],
        by norm_num [sumTierPop, tierBandVal],
        by norm_num [sumTierPop, tierBandVal]⟩)

theorem lookup_llgStatProps (s : LLGStats) (props : List (String × PVal))
    (k : String) (hk : k ∉ statKeys) :
    (llgStatProps s ++ props).lookup k = props.lookup k := by
  simp only [statKeys, List.mem_cons, List.not_mem_nil, or_false, not_or] at hk
  obtain ⟨h1, h2, h3, h4, h5, h6, h7, h8, h9, h10⟩ := hk
  simp [llgStatProps, List.lookup, beq_eq_false_iff_ne.mpr h1,
    beq_eq_false_iff_ne.mpr h2, beq_eq_false_iff_ne.mpr h3,
    beq_eq_false_iff_ne.mpr h4, beq_eq_false_iff_ne.mpr h5,
    beq_eq_false_iff_ne.mpr h6, beq_eq_false_iff_ne.mpr h7,
    beq_eq_false_iff_ne.mpr h8, beq_eq_false_iff_ne.mpr h9,
    beq_eq_false_iff_ne.mpr h10]

theorem lookup_floodStatProps (s : FloodStats) (props : List (String × PVal))
    (k : String) (hk : k ∉ floodStatKeys) :
    (floodStatProps s ++ props).lookup k = props.lookup k := by
  simp only [floodStatKeys, List.mem_cons, List.not_mem_nil, or_false,
    not_or] at hk
  obtain ⟨h1, h2, h3, h4, h5⟩ := hk
  simp [floodStatProps, List.lookup, beq_eq_false_iff_ne.mpr h1,
    beq_eq_false_iff_ne.mpr h2, beq_eq_false_iff_ne.mpr h3,
    beq_eq_false_iff_ne.mpr h4, beq_eq_false_iff_ne.mpr h5]

/-- C10: the per-zone statistics computation rewrites the collection
feature by feature; it preserves the collection's length and order, each
feature's geometry, and the value of every property whose name is not one
of the statistic keys it writes (identifier, parent-province attribute and
any other pre-existing property), in both the landslide and flood
pipelines. -/
theorem C10_frame_preservation :
    (∀ (bs : List Feature) (i : ℕ),
      ((calculateLLGStatisticsFC bs)[i]?).map Feature.geom
        = (bs[i]?).map Feature.geom) ∧
    (∀ (bs : List Feature) (i : ℕ) (k : String), k ∉ statKeys →
      ((calculateLLGStatisticsFC bs)[i]?).map (fun f => getProp f k)
        = (bs[i]?).map (fun f => getProp f k)) ∧
    (∀ bs : List Feature, (calculateLLGStatisticsFC bs).length = bs.length) ∧
    (∀ (bs : List FFeature) (i : ℕ),
      ((calculateFloodLLGStatisticsFC bs)[i]?).map FFeature.geom
        = (bs[i]?).map FFeature.geom) ∧
    (∀ (bs : List FFeature) (i : ℕ) (k : String), k ∉ floodStatKeys →
      ((calculateFloodLLGStatisticsFC bs)[i]?).map (fun f => fgetProp f k)
        = (bs[i]?).map (fun f => fgetProp f k)) ∧
    (∀ bs : List FFeature,
      (calculateFloodLLGStatisticsFC bs).length = bs.length) := by
  refine ⟨?_, ?_, ?_, ?_, ?_, ?_⟩
  · intro bs i
    unfold calculateLLGStatisticsFC
    rw [List.getElem?_map]
    cases bs[i]? <;> simp [llgMapper, featureSet]
  · intro bs i k hk
    unfold calculateLLGStatisticsFC
    rw [List.getElem?_map]
    cases bs[i]? <;>
      simp [llgMapper, featureSet, getProp, lookup_llgStatProps _ _ k hk]
  · intro bs
    unfold calculateLLGStatisticsFC
    exact List.length_map bs llgMapper
  · intro bs i
    unfold calculateFloodLLGStatisticsFC
    rw [List.getElem?_map]
    cases bs[i]? <;> simp [floodMapper, ffeatureSet]
  · intro bs i k hk
    unfold calculateFloodLLGStatisticsFC
    rw [List.getElem?_map]
    cases bs[i]? <;>
      simp [floodMapper, ffeatureSet, fgetProp, lookup_floodStatProps _ _ k hk]
  · intro bs
    unfold calculateFloodLLGStatisticsFC
    exact List.length_map bs floodMapper

/-- C10 witness: the frame theorem instantiated on one-feature collections
with a pre-existing parent-province attribute. -/
theorem C10_frame_preservation_witness :
    ((calculateLLGStatisticsFC [featW])[0]?).map (fun f => getProp f "ADM1_EN")
      = (([featW] : List Feature)[0]?).map (fun f => getProp f "ADM1_EN") ∧
    ((calculateFloodLLGStatisticsFC [ffeatW])[0]?).map
        (fun f => fgetProp f "ADM1_EN")
      = (([ffeatW] : List FFeature)[0]?).map (fun f => fgetProp f "ADM1_EN") :=
  ⟨C10_frame_preservation.2.1 [featW] 0 "ADM1_EN" (by decide),
    C10_frame_preservation.2.2.2.2.1 [ffeatW] 0 "ADM1_EN" (by decide)⟩

/-- C9 counterexample: a zone whose reducer returned no value for any band
(a failed or empty reduction) produces exactly the same statistics record
as a legitimately zero-valued zone, in both pipelines: there is no
failure or approximation flag distinguishing the two. -/
theorem C9_counterexample :
    buildLLGRecord none none none none none
      = buildLLGRecord (some 0) (some 0) (some 0) (some 0) (some 0) ∧
    buildFloodRecord none none none
      = buildFloodRecord (some 0) (some 0) (some 0) :=
  ⟨rfl, rfl⟩

/-- C9 (amended): a band for which the reducer reports no value is
silently coerced to 0 — the record built from absent bands is identical
to the record built from present zero bands, and the record carries no
flag; only the per-zone isolation part of the claim holds: replacing one
zone's feature changes no other zone's output record. -/
theorem C9_silent_zero_coercion :
    (∀ t l m h v : Option ℚ,
      buildLLGRecord t l m h v
        = buildLLGRecord (some (t.getD 0)) (some (l.getD 0)) (some (m.getD 0))
            (some (h.getD 0)) (some (v.getD 0))) ∧
    (∀ t e a : Option ℚ,
      buildFloodRecord t e a
        = buildFloodRecord (some (t.getD 0)) (some (e.getD 0))
            (some (a.getD 0))) ∧
    (∀ (pre post : List Feature) (f g : Feature),
      (calculateLLGStatisticsFC (pre ++ f :: post)).take pre.length
        = (calculateLLGStatisticsFC (pre ++ g :: post)).take pre.length ∧
      (calculateLLGStatisticsFC (pre ++ f :: post)).drop (pre.length + 1)
        = (calculateLLGStatisticsFC (pre ++ g :: post)).drop (pre.length + 1)) := by
  refine ⟨fun t l m h v => rfl, fun t e a => rfl, ?_⟩
  intro pre post f g
  unfold calculateLLGStatisticsFC
  constructor
  · rw [List.map_append, List.map_append, List.map_cons, List.map_cons]
    have hlen : pre.length = (pre.map llgMapper).length :=
      (List.length_map pre llgMapper).symm
    rw [hlen, List.take_left, List.take_left]
  · have df : (List.map llgMapper pre ++ llgMapper f
        :: List.map llgMapper post).drop (pre.length + 1)
        = List.map llgMapper post := by
      have h1 : List.map llgMapper pre ++ llgMapper f :: List.map llgMapper post
          = (List.map llgMapper pre ++ [llgMapper f]) ++ List.map llgMapper post := by
        simp
      have h2 : pre.length + 1
          = (List.map llgMapper pre ++ [llgMapper f]).length := by
        simp
      rw [h1, h2, List.drop_left]
    have dg : (List.map llgMapper pre ++ llgMapper g
        :: List.map llgMapper post).drop (pre.length + 1)
        = List.map llgMapper post := by
      have h1 : List.map llgMapper pre ++ llgMapper g :: List.map llgMapper post
          = (List.map llgMapper pre ++ [llgMapper g]) ++ List.map llgMapper post := by
        simp
      have h2 : pre.length + 1
          = (List.map llgMapper pre ++ [llgMapper g]).length := by
        simp
      rw [h1, h2, List.drop_left]
    rw [List.map_append, List.map_cons, List.map_append, List.map_cons]
    exact df.trans dg.symm

end PNGHazard
